import Mathlib

/-!
Shallow embedding of the attendance / pay-cut calculation core of the
time-task-nexus repository.

Sources embedded:
* `AttendanceTracker.tsx` — `handleCheckIn` (lateness + late-only pay cut),
  `handleCheckOut` (early departure, worked hours, incremental pay cut);
* `AdminAttendanceDialog` (src/unnamed/part_000) — `calculateHoursAndPayCut`
  (single-pass computation) and `handleSubmit` (record payload);
* `OvertimeRequestForm.tsx` — `calculateHours` and the zod schema refinement;
* SQL migration (src/unnamed/part_009) — `calculate_pay_cut`.

Numbers are modelled with `ℚ` (monetary values, hours, rates) and `ℤ`
(timestamps in milliseconds since epoch, minute counts), following the
numeric values the code manipulates.
-/

/-- JS `Math.round`: round to nearest integer, ties toward `+∞`,
i.e. `⌊x + 1/2⌋`. -/
def jsRound (q : ℚ) : ℤ := ⌊q + 1/2⌋

/-- The TS pattern `Math.round(x * 100) / 100`, also the value of
`Number(x.toFixed(2))` (JS `toFixed` picks the larger candidate on ties,
which is the same tie-toward-`+∞` rule). -/
def round2 (q : ℚ) : ℚ := (jsRound (q * 100) : ℚ) / 100

/-- JS `ToIntegerOrInfinity` as applied by `Date.prototype.setHours` to a
fractional hour argument: truncation toward zero. -/
def jsTrunc (q : ℚ) : ℤ := if 0 ≤ q then ⌊q⌋ else ⌈q⌉

/-- PostgreSQL `ROUND(numeric)`: round to nearest, ties away from zero. -/
def sqlRound (q : ℚ) : ℤ := if 0 ≤ q then ⌊q + 1/2⌋ else -⌊-q + 1/2⌋

/-- PostgreSQL `ROUND(x, 2)` on `numeric` arguments. -/
def sqlRound2 (q : ℚ) : ℚ := (sqlRound (q * 100) : ℚ) / 100

/-- `todayWorkStart`: the attendance day's midnight `D` (ms) at the
hard-coded `workStartHour = 9` (`AttendanceTracker.tsx` line 143-145 and
part_000 lines 89-91). -/
def workStart (D : ℤ) : ℤ := D + 9 * 3600000

/-- Late minutes of a check-in instant `t` (ms):
`if (now > todayWorkStart) lateMinutes = Math.round((now - workStart)/60000)`
(`AttendanceTracker.tsx` lines 147-152, identically part_000 lines 93-98). -/
def lateMinutesCalc (D t : ℤ) : ℤ :=
  if workStart D < t then jsRound (((t - workStart D : ℤ) : ℚ) / 60000) else 0

/-- `isLate` flag: set to `lateMinutes > 0` inside the same branch,
`false` otherwise. -/
def isLateCalc (D t : ℤ) : Bool :=
  if workStart D < t then decide (0 < lateMinutesCalc D t) else false

/-- `todayWorkEnd` in the employee check-out flow:
`workEndHour = 9 + dailyHours; todayWorkEnd.setHours(workEndHour, 0, 0, 0)`
(`AttendanceTracker.tsx` lines 230-234).  `setHours` truncates a fractional
hour argument toward zero. -/
def workEndTracker (D : ℤ) (dailyHours : ℚ) : ℤ :=
  D + jsTrunc (9 + dailyHours) * 3600000

/-- Early-departure minutes in the employee check-out flow
(`AttendanceTracker.tsx` lines 236-239). -/
def earlyDepartureTracker (D : ℤ) (dailyHours : ℚ) (t : ℤ) : ℤ :=
  if t < workEndTracker D dailyHours then
    jsRound (((workEndTracker D dailyHours - t : ℤ) : ℚ) / 60000)
  else 0

/-- `todayWorkEnd` in the admin edit flow: hard-coded `workEndHour = 17`
(part_000 lines 107-109), independent of the configured daily hours. -/
def workEndAdmin (D : ℤ) : ℤ := D + 17 * 3600000

/-- Early-departure minutes in the admin edit flow
(part_000 lines 111-113). -/
def earlyDepartureAdmin (D t : ℤ) : ℤ :=
  if t < workEndAdmin D then
    jsRound (((workEndAdmin D - t : ℤ) : ℚ) / 60000)
  else 0

/-- The raw (pre-rounding) tiered charge over total violation minutes,
as written in part_000 lines 121-125 and `handleCheckIn` lines 164-168:
first 60 minutes at `rate/60` per minute, the excess at `1.5 × rate/60`. -/
def chargeQ (total r : ℚ) : ℚ :=
  if total ≤ 60 then total / 60 * r else r + (total - 60) / 60 * r * (3/2)

/-- Single-pass pay cut of part_000 `calculateHoursAndPayCut` lines 116-128:
`if (hourlyRate) { if (total > 0) { tiered charge; round } }`.
JS truthiness makes both `null` and `0` skip the computation. -/
def payCutSinglePass (late early : ℚ) (rate : Option ℚ) : ℚ :=
  match rate with
  | none => 0
  | some r =>
    if r = 0 then 0
    else if 0 < late + early then round2 (chargeQ (late + early) r) else 0

/-- Check-in pay cut of `AttendanceTracker.tsx` `handleCheckIn` lines 161-170:
`if (lateMinutes > 0 && profile?.hourly_rate) { tiered charge; round }`. -/
def checkInPayCut (late : ℚ) (rate : Option ℚ) : ℚ :=
  match rate with
  | none => 0
  | some r =>
    if r = 0 then 0
    else if 0 < late then round2 (chargeQ late r) else 0

/-- The additional early-departure charge of `handleCheckOut` lines 253-259:
`remainingFromLate = Math.max(0, 60 - late)`, early minutes within that
budget at `rate/60`, the excess at `1.5 × rate/60`. -/
def additionalCut (late early r : ℚ) : ℚ :=
  if early ≤ max 0 (60 - late) then early / 60 * r
  else max 0 (60 - late) / 60 * r + (early - max 0 (60 - late)) / 60 * r * (3/2)

/-- Check-out pay cut of `handleCheckOut` lines 248-262: start from the
persisted prior `pay_cut_amount || 0`; only when
`earlyDepartureMinutes > 0 && profile?.hourly_rate` add the additional
charge and round. -/
def checkOutPayCut (late early : ℚ) (rate : Option ℚ) (prior : ℚ) : ℚ :=
  match rate with
  | none => prior
  | some r =>
    if r = 0 then prior
    else if 0 < early then round2 (prior + additionalCut late early r) else prior

/-- The SQL function `public.calculate_pay_cut` (part_009 lines 45-85):
`total := COALESCE(late,0) + COALESCE(early,0)`; `NULL` or `0` rate returns
0; otherwise first/second period split at 60 minutes, charged at
`rate/60 × 1.0` and `rate/60 × 1.5`, `ROUND(…, 2)`. -/
def calculate_pay_cut (pLate pEarly pRate : Option ℚ) : ℚ :=
  let total := pLate.getD 0 + pEarly.getD 0
  match pRate with
  | none => 0
  | some r =>
    if r = 0 then 0
    else
      let firstPeriod := if total ≤ 60 then total else 60
      let secondPeriod := if total ≤ 60 then 0 else total - 60
      sqlRound2 (firstPeriod * (r / 60) * 1 + secondPeriod * (r / 60) * (3/2))

/-- `totalHours` computation: `null` without a check-out, otherwise
`Number(((out − in) / 3600000).toFixed(2))`
(part_000 lines 100-104, `handleCheckOut` lines 221 and 268). -/
def totalHoursCalc (checkIn : ℤ) (checkOut : Option ℤ) : Option ℚ :=
  checkOut.map fun o => round2 (((o - checkIn : ℤ) : ℚ) / 3600000)

/-- Result record of part_000 `calculateHoursAndPayCut` (lines 130-136). -/
structure CalcResult where
  isLate : Bool
  lateMinutes : ℤ
  totalHours : Option ℚ
  earlyDepartureMinutes : ℤ
  payCut : ℚ
  deriving DecidableEq

/-- part_000 `calculateHoursAndPayCut` (lines 84-137): `D` is the selected
date's midnight (ms), `ciT`/`coT` the check-in / optional check-out
time-of-day (ms), so `checkInDate = D + ciT` and `checkOutDate = D + coT`,
exactly as the code builds them from `date` plus an `HH:mm` string. -/
def calculateHoursAndPayCut (D ciT : ℤ) (coT : Option ℤ) (hourlyRate : Option ℚ) :
    CalcResult :=
  let checkInDate := D + ciT
  let checkOutDate := coT.map (fun t => D + t)
  let late := lateMinutesCalc D checkInDate
  let early := match checkOutDate with
    | none => 0
    | some o => earlyDepartureAdmin D o
  { isLate := isLateCalc D checkInDate
    lateMinutes := late
    totalHours := totalHoursCalc checkInDate checkOutDate
    earlyDepartureMinutes := early
    payCut := payCutSinglePass (late : ℚ) (early : ℚ) hourlyRate }

/-- The attendance row fields touched by the embedded flows.  Nullable
database columns are `Option`; `late_minutes`, `early_departure_minutes`,
`pay_cut_amount` have database default 0 (part_009 lines 33-37). -/
structure AttendanceRecord where
  check_in_time : ℤ
  check_out_time : Option ℤ
  total_hours : Option ℚ
  status : String
  is_late : Bool
  late_minutes : Option ℤ
  early_departure_minutes : Option ℤ
  pay_cut_amount : Option ℚ
  pay_cut_approved : Bool
  deriving DecidableEq

/-- The database update performed by `handleCheckOut`
(`AttendanceTracker.tsx` lines 214-274): it writes exactly
`check_out_time`, `total_hours`, `early_departure_minutes` and
`pay_cut_amount`; the pay cut starts from `pay_cut_amount || 0` and uses
`late_minutes || 0` as the prior late minutes. -/
def applyCheckOut (rec : AttendanceRecord) (now D : ℤ) (dailyHours : ℚ)
    (rate : Option ℚ) : AttendanceRecord :=
  let early := earlyDepartureTracker D dailyHours now
  { rec with
    check_out_time := some now
    total_hours := some (round2 (((now - rec.check_in_time : ℤ) : ℚ) / 3600000))
    early_departure_minutes := some early
    pay_cut_amount := some (checkOutPayCut ((rec.late_minutes.getD 0 : ℤ) : ℚ)
      (early : ℚ) rate (rec.pay_cut_amount.getD 0)) }

/-- The `attendanceData` payload built by part_000 `handleSubmit`
(lines 160-172): full single-pass recomputation plus the literal
`pay_cut_approved: false`. -/
def buildAdminAttendanceData (D ciT : ℤ) (coT : Option ℤ) (rate : Option ℚ)
    (status : String) : AttendanceRecord :=
  let c := calculateHoursAndPayCut D ciT coT rate
  { check_in_time := D + ciT
    check_out_time := coT.map (fun t => D + t)
    total_hours := c.totalHours
    status := status
    is_late := c.isLate
    late_minutes := some c.lateMinutes
    early_departure_minutes := some c.earlyDepartureMinutes
    pay_cut_amount := some c.payCut
    pay_cut_approved := false }

/-- part_000 `handleSubmit` (lines 174-199): both the update branch
(overwriting every payload column of the existing row) and the insert
branch persist the same `attendanceData` payload. -/
def adminSubmit (old : Option AttendanceRecord) (D ciT : ℤ) (coT : Option ℤ)
    (rate : Option ℚ) (status : String) : AttendanceRecord :=
  match old with
  | some _ => buildAdminAttendanceData D ciT coT rate status
  | none => buildAdminAttendanceData D ciT coT rate status

/-- `OvertimeRequestForm.tsx` `calculateHours` (lines 54-59): times are
ms offsets on the fixed date 2000-01-01; the result is the plain
millisecond difference divided by 3600000, with no rounding. -/
def calculateHours (startTime endTime : ℤ) : ℚ :=
  ((endTime - startTime : ℤ) : ℚ) / 3600000

/-- The `overtimeSchema` zod object (`OvertimeRequestForm.tsx` lines 19-33):
non-empty start and end time strings, a reason of at least 10 characters,
and the refinement `end > start` on the parsed times.  `startLen`,
`endLen`, `reasonLen` are the string lengths, `startTime`/`endTime` the
parsed `2000-01-01T…` instants. -/
def overtimeSchemaAccepts (startLen endLen reasonLen : ℕ)
    (startTime endTime : ℤ) : Bool :=
  decide (1 ≤ startLen) && decide (1 ≤ endLen) && decide (10 ≤ reasonLen) &&
    decide (startTime < endTime)

/-- Modelled from the spec (§4.2): the spec's early-departure contract
says `workEnd = date at (start_hour + daily_hours)` with a fractional
`daily_hours` converted to minutes before adding — i.e. an exact
`(9 + daily_hours) × 3600000` ms offset, unlike the code's truncating
`setHours`.  Used only to compare the spec's words with the code. -/
def specWorkEnd (D : ℤ) (dailyHours : ℚ) : ℚ := (D : ℚ) + (9 + dailyHours) * 3600000

/-- Modelled from the spec (§4.2): early departure measured against
`specWorkEnd`, rounding the minute difference. -/
def specEarlyDeparture (D : ℤ) (dailyHours : ℚ) (t : ℤ) : ℤ :=
  if (t : ℚ) < specWorkEnd D dailyHours then
    jsRound ((specWorkEnd D dailyHours - (t : ℚ)) / 60000)
  else 0

/-- The spec's description of the pay-cut value shared by the TypeScript
single-pass computation and the SQL function (claim C9's wording):
`min(total, 60)` minutes at `rate/60` plus minutes beyond 60 at
`1.5 × rate/60`, rounded to 2 decimals. -/
def payCutSpec (late early r : ℚ) : ℚ :=
  sqlRound2 (min (late + early) 60 * (r / 60) +
    max ((late + early) - 60) 0 * (r / 60) * (3/2))

-- sanity examples (concrete evaluations of the embedded code)
example : payCutSinglePass 30 20 (some 60) = 50 := by
  norm_num [payCutSinglePass, chargeQ, round2, jsRound]
example : payCutSinglePass 40 30 (some 60) = 75 := by
  norm_num [payCutSinglePass, chargeQ, round2, jsRound]
example : payCutSinglePass 1 1 (some 1) = 3/100 := by
  norm_num [payCutSinglePass, chargeQ, round2, jsRound]
example : checkInPayCut 1 (some 1) = 1/50 := by
  norm_num [checkInPayCut, chargeQ, round2, jsRound]
example : checkOutPayCut 1 1 (some 1) (1/50) = 1/25 := by
  norm_num [checkOutPayCut, additionalCut, round2, jsRound]
example : calculate_pay_cut (some 1) (some 0) (some (-3/10)) = -1/100 := by
  norm_num [calculate_pay_cut, sqlRound2, sqlRound]
example : payCutSinglePass 1 0 (some (-3/10)) = 0 := by
  norm_num [payCutSinglePass, chargeQ, round2, jsRound]
example : totalHoursCalc 36000000 (some 32400000) = some (-1) := by
  norm_num [totalHoursCalc, round2, jsRound]

/-! ## Shared lemmas -/

theorem jsRound_intCast (n : ℤ) : jsRound (n : ℚ) = n := by
  unfold jsRound
  rw [Int.floor_int_add]
  norm_num

theorem round2_eq_sqlRound2 {q : ℚ} (h : 0 ≤ q) : round2 q = sqlRound2 q := by
  unfold round2 sqlRound2 sqlRound jsRound
  rw [if_pos (mul_nonneg h (by norm_num))]

theorem chargeQ_zero (r : ℚ) : chargeQ 0 r = 0 := by
  unfold chargeQ
  rw [if_pos (by norm_num)]
  ring

theorem chargeQ_nonneg {total r : ℚ} (ht : 0 ≤ total) (hr : 0 ≤ r) :
    0 ≤ chargeQ total r := by
  unfold chargeQ
  split_ifs with h
  · exact mul_nonneg (div_nonneg ht (by norm_num)) hr
  · have h60 : (0:ℚ) ≤ total - 60 := by linarith [not_le.mp h]
    have h1 : 0 ≤ (total - 60) / 60 * r * (3/2) :=
      mul_nonneg (mul_nonneg (div_nonneg h60 (by norm_num)) hr) (by norm_num)
    linarith

theorem chargeQ_add_additionalCut {L E r : ℚ} (_hL : 0 ≤ L) (hE : 0 ≤ E) :
    chargeQ L r + additionalCut L E r = chargeQ (L + E) r := by
  unfold chargeQ additionalCut
  rcases le_or_lt L 60 with h1 | h1
  · rw [if_pos h1, max_eq_right (by linarith : (0:ℚ) ≤ 60 - L)]
    rcases le_or_lt E (60 - L) with h2 | h2
    · rw [if_pos h2, if_pos (by linarith : L + E ≤ 60)]
      ring
    · rw [if_neg (not_le.mpr h2), if_neg (by linarith : ¬ L + E ≤ 60)]
      ring
  · rw [if_neg (not_le.mpr h1), max_eq_left (by linarith : 60 - L ≤ 0)]
    rcases le_or_lt E 0 with h2 | h2
    · have hE0 : E = 0 := le_antisymm h2 hE
      subst hE0
      rw [if_pos le_rfl, if_neg (by linarith : ¬ L + 0 ≤ 60)]
      ring
    · rw [if_neg (not_le.mpr h2), if_neg (by linarith : ¬ L + E ≤ 60)]
      ring

theorem checkInPayCut_eq_singlePass (late : ℚ) (rate : Option ℚ) :
    checkInPayCut late rate = payCutSinglePass late 0 rate := by
  unfold checkInPayCut payCutSinglePass
  cases rate with
  | none => rfl
  | some r => rw [add_zero]

/-! ## Claim C1 -/

/-- C1 (counterexample): the two pay-cut call patterns do NOT compose
exactly.  With lateMinutes 1, earlyDepartureMinutes 1 and hourlyRate 1,
the check-in charge 1/60 is persisted rounded to 0.02, so the incremental
check-out computation yields 0.04, while the single-pass computation over
the 2 total violation minutes yields 0.03. -/
theorem C1_counterexample :
    checkOutPayCut 1 1 (some 1) (checkInPayCut 1 (some 1)) = 1/25 ∧
      payCutSinglePass 1 1 (some 1) = 3/100 ∧ (1/25 : ℚ) ≠ 3/100 := by
  refine ⟨?_, ?_, by norm_num⟩
  · norm_num [checkOutPayCut, checkInPayCut, additionalCut, chargeQ, round2, jsRound]
  · norm_num [payCutSinglePass, chargeQ, round2, jsRound]

/-- C1 (amended): composability of the two pay-cut call patterns holds
whenever the late-only check-in charge is exact at two decimals (its
rounding is the identity); in general the rounded persisted prior makes
the incremental check-out result differ from the single-pass result. -/
theorem C1_amended_composability (L E R : ℚ) (hL : 0 ≤ L) (hE : 0 ≤ E)
    (hR : 0 < R) (hexact : round2 (chargeQ L R) = chargeQ L R) :
    checkOutPayCut L E (some R) (checkInPayCut L (some R)) =
      payCutSinglePass L E (some R) := by
  have hR0 : R ≠ 0 := ne_of_gt hR
  have hprior : checkInPayCut L (some R) = chargeQ L R := by
    simp only [checkInPayCut]
    rw [if_neg hR0]
    by_cases hL0 : 0 < L
    · rw [if_pos hL0, hexact]
    · have hLz : L = 0 := le_antisymm (not_lt.mp hL0) hL
      rw [if_neg hL0, hLz, chargeQ_zero]
  by_cases hE0 : 0 < E
  · simp only [checkOutPayCut, payCutSinglePass]
    rw [if_neg hR0, if_neg hR0, if_pos hE0, if_pos (by linarith : 0 < L + E),
      hprior, chargeQ_add_additionalCut hL hE]
  · have hEz : E = 0 := le_antisymm (not_lt.mp hE0) hE
    subst hEz
    simp only [checkOutPayCut]
    rw [if_neg hR0, if_neg (by norm_num : ¬ (0:ℚ) < 0)]
    rw [checkInPayCut_eq_singlePass]

/-- C1 (witness for the amended theorem): with L = 30, E = 20, R = 60 the
check-in charge is exactly 30.00, and incremental and single-pass agree. -/
theorem C1_witness :
    checkOutPayCut 30 20 (some 60) (checkInPayCut 30 (some 60)) =
      payCutSinglePass 30 20 (some 60) :=
  C1_amended_composability 30 20 60 (by norm_num) (by norm_num) (by norm_num)
    (by norm_num [chargeQ, round2, jsRound])

/-! ## Claim C2 -/

/-- C2: the single-pass tiered pay-cut formula.  For every hourlyRate
R > 0 and nonnegative minute counts, the computed pay cut is the tiered
charge (base rate within the 60-minute bucket, 1.5× beyond) rounded
half-up to two decimals; with R = 60, inputs (30, 20) give 50.00 and
(40, 30) give 75.00. -/
theorem C2_single_pass_formula (L E R : ℚ) (hL : 0 ≤ L) (hE : 0 ≤ E)
    (hR : 0 < R) :
    payCutSinglePass L E (some R) =
      round2 (if L + E ≤ 60 then (L + E) / 60 * R
        else R + ((L + E) - 60) / 60 * R * (3/2)) ∧
      payCutSinglePass 30 20 (some 60) = 50 ∧
      payCutSinglePass 40 30 (some 60) = 75 := by
  refine ⟨?_, ?_, ?_⟩
  · simp only [payCutSinglePass]
    rw [if_neg (ne_of_gt hR)]
    by_cases h0 : 0 < L + E
    · rw [if_pos h0]
      rfl
    · have hz : L + E = 0 := le_antisymm (not_lt.mp h0) (by linarith)
      rw [if_neg h0, hz]
      show (0:ℚ) = round2 (if (0:ℚ) ≤ 60 then 0 / 60 * R else _)
      rw [if_pos (by norm_num : (0:ℚ) ≤ 60)]
      norm_num [round2, jsRound]
  · norm_num [payCutSinglePass, chargeQ, round2, jsRound]
  · norm_num [payCutSinglePass, chargeQ, round2, jsRound]

/-- C2 (witness): the general formula applied at L = 30, E = 20, R = 60. -/
theorem C2_witness :
    payCutSinglePass 30 20 (some 60) =
      round2 (if (30:ℚ) + 20 ≤ 60 then ((30:ℚ) + 20) / 60 * 60
        else 60 + (((30:ℚ) + 20) - 60) / 60 * 60 * (3/2)) :=
  (C2_single_pass_formula 30 20 60 (by norm_num) (by norm_num) (by norm_num)).1

/-! ## Claim C3 -/

theorem minutesRound (n : ℤ) : jsRound (((n * 60000 : ℤ) : ℚ) / 60000) = n := by
  have h : (((n * 60000 : ℤ) : ℚ) / 60000) = (n : ℚ) := by
    push_cast
    field_simp
  rw [h, jsRound_intCast]

/-- C3 (counterexample): the early-departure contract claimed with a
fractional `daily_hours` converted to minutes does not match the code.
With daily_hours 7.5 the code's `setHours(9 + 7.5, 0, 0, 0)` truncates to
16:00, so a 16:10 check-out (58,200,000 ms into the day) yields 0 early
minutes, while the spec's work end 16:30 would yield 20. -/
theorem C3_counterexample :
    earlyDepartureTracker 0 (15/2) 58200000 = 0 ∧
      specEarlyDeparture 0 (15/2) 58200000 = 20 := by
  constructor
  · norm_num [earlyDepartureTracker, workEndTracker, jsTrunc]
  · norm_num [specEarlyDeparture, specWorkEnd, jsRound]

/-- C3 (amended): earlyDepartureMinutes equals round((workEnd − checkOut)
in minutes) when checkOut < workEnd and 0 when checkOut ≥ workEnd, where
workEnd in the employee check-out flow is the attendance date at hour
trunc(9 + daily_hours) — a fractional daily_hours has its fractional part
discarded by `setHours` — and in the admin edit flow is fixed at hour 17
regardless of the policy.  In particular a check-out k whole minutes
before the respective workEnd yields k. -/
theorem C3_amended_early_departure :
    ∀ (D : ℤ) (dailyHours : ℚ) (k : ℕ),
      earlyDepartureTracker D dailyHours
        (workEndTracker D dailyHours - k * 60000) = k ∧
      (∀ t, workEndTracker D dailyHours ≤ t →
        earlyDepartureTracker D dailyHours t = 0) ∧
      earlyDepartureAdmin D (workEndAdmin D - k * 60000) = k ∧
      (∀ t, workEndAdmin D ≤ t → earlyDepartureAdmin D t = 0) := by
  intro D dh k
  refine ⟨?_, ?_, ?_, ?_⟩
  · rcases Nat.eq_zero_or_pos k with hk | hk
    · subst hk
      simp [earlyDepartureTracker]
    · unfold earlyDepartureTracker
      rw [if_pos (sub_lt_self _ (by positivity : (0:ℤ) < (k:ℤ) * 60000))]
      have h : workEndTracker D dh - (workEndTracker D dh - (k:ℤ) * 60000) =
          (k:ℤ) * 60000 := by ring
      rw [h, minutesRound]
  · intro t ht
    unfold earlyDepartureTracker
    rw [if_neg (not_lt.mpr ht)]
  · rcases Nat.eq_zero_or_pos k with hk | hk
    · subst hk
      simp [earlyDepartureAdmin]
    · unfold earlyDepartureAdmin
      rw [if_pos (sub_lt_self _ (by positivity : (0:ℤ) < (k:ℤ) * 60000))]
      have h : workEndAdmin D - (workEndAdmin D - (k:ℤ) * 60000) =
          (k:ℤ) * 60000 := by ring
      rw [h, minutesRound]
  · intro t ht
    unfold earlyDepartureAdmin
    rw [if_neg (not_lt.mpr ht)]

/-- C3 (witness for the amended theorem): 20 minutes before the truncated
work end gives 20; at or after the admin work end 17:00 gives 0. -/
theorem C3_witness :
    earlyDepartureTracker 0 8 (workEndTracker 0 8 - 20 * 60000) = 20 ∧
      earlyDepartureAdmin 0 61500000 = 0 :=
  ⟨(C3_amended_early_departure 0 8 20).1,
    (C3_amended_early_departure 0 8 20).2.2.2 61500000 (by norm_num [workEndAdmin])⟩

/-! ## Claim C4 -/

/-- C4 (counterexample): a negative hourly rate is NOT short-circuited to
0: JS only skips `null` and `0` (falsy values), so with rate −60 and 30
late minutes the single-pass pay cut is −30, not 0. -/
theorem C4_counterexample :
    payCutSinglePass 30 0 (some (-60)) = -30 ∧ (-60 : ℚ) < 0 := by
  constructor
  · norm_num [payCutSinglePass, chargeQ, round2, jsRound]
  · norm_num

/-- C4 (amended): in every call pattern (check-in, check-out increment
composed with its check-in prior, admin single-pass, and the database
function calculate_pay_cut) the computed pay cut is 0 whenever hourlyRate
is null or exactly 0 — negative rates flow through the formula — and also
whenever the total violation minutes are 0. -/
theorem C4_amended_zero_short_circuit (L E : ℚ) :
    payCutSinglePass L E none = 0 ∧ payCutSinglePass L E (some 0) = 0 ∧
    checkInPayCut L none = 0 ∧ checkInPayCut L (some 0) = 0 ∧
    checkOutPayCut L E none (checkInPayCut L none) = 0 ∧
    checkOutPayCut L E (some 0) (checkInPayCut L (some 0)) = 0 ∧
    calculate_pay_cut (some L) (some E) none = 0 ∧
    calculate_pay_cut (some L) (some E) (some 0) = 0 ∧
    (∀ rate, payCutSinglePass 0 0 rate = 0) ∧
    (∀ rate, checkInPayCut 0 rate = 0) ∧
    (∀ rate, checkOutPayCut 0 0 rate (checkInPayCut 0 rate) = 0) ∧
    (∀ rate, calculate_pay_cut (some 0) (some 0) rate = 0) := by
  refine ⟨rfl, ?_, rfl, ?_, rfl, ?_, rfl, ?_, ?_, ?_, ?_, ?_⟩
  · simp [payCutSinglePass]
  · simp [checkInPayCut]
  · simp [checkOutPayCut, checkInPayCut]
  · simp [calculate_pay_cut]
  · intro rate
    cases rate with
    | none => rfl
    | some r => simp [payCutSinglePass]
  · intro rate
    cases rate with
    | none => rfl
    | some r => simp [checkInPayCut]
  · intro rate
    cases rate with
    | none => rfl
    | some r => simp [checkOutPayCut, checkInPayCut]
  · intro rate
    cases rate with
    | none => rfl
    | some r =>
      norm_num [calculate_pay_cut, sqlRound2, sqlRound]

/-! ## Claim C5 -/

/-- C5: the lateness contract.  A check-in at or before the 9:00 work
start yields 0 late minutes and `isLate = false`; a check-in exactly k
whole minutes after the work start (k > 0) yields k late minutes and
`isLate = true`. -/
theorem C5_lateness_contract :
    ∀ (D t k : ℤ),
      (t ≤ workStart D → lateMinutesCalc D t = 0 ∧ isLateCalc D t = false) ∧
      (0 < k → lateMinutesCalc D (workStart D + k * 60000) = k ∧
        isLateCalc D (workStart D + k * 60000) = true) := by
  intro D t k
  constructor
  · intro h
    unfold lateMinutesCalc isLateCalc
    rw [if_neg (not_lt.mpr h), if_neg (not_lt.mpr h)]
    exact ⟨rfl, rfl⟩
  · intro hk
    have hlt : workStart D < workStart D + k * 60000 :=
      lt_add_of_pos_right _ (by positivity)
    have hval : lateMinutesCalc D (workStart D + k * 60000) = k := by
      unfold lateMinutesCalc
      rw [if_pos hlt]
      have h : workStart D + k * 60000 - workStart D = k * 60000 := by ring
      rw [h, minutesRound]
    refine ⟨hval, ?_⟩
    unfold isLateCalc
    rw [if_pos hlt, hval]
    exact decide_eq_true hk

/-- C5 (witness): check-in exactly at the work start gives (0, false);
check-in 15 minutes after the work start gives (15, true). -/
theorem C5_witness :
    (lateMinutesCalc 0 (workStart 0) = 0 ∧ isLateCalc 0 (workStart 0) = false) ∧
      (lateMinutesCalc 0 (workStart 0 + 15 * 60000) = 15 ∧
        isLateCalc 0 (workStart 0 + 15 * 60000) = true) :=
  ⟨(C5_lateness_contract 0 (workStart 0) 15).1 le_rfl,
    (C5_lateness_contract 0 (workStart 0) 15).2 (by norm_num)⟩

/-! ## Claim C6 -/

/-- C6: the worked-hours contract.  `total_hours` is set iff a check-out
is given; it is the check-out minus check-in difference in hours rounded
to two decimals (exact on whole hundredths of an hour), and it is not
clamped at zero: checking out at 9:00 after a 10:00 check-in stores −1. -/
theorem C6_total_hours_contract :
    (∀ ci : ℤ, totalHoursCalc ci none = none) ∧
    (∀ ci o : ℤ, totalHoursCalc ci (some o) =
      some (round2 (((o - ci : ℤ) : ℚ) / 3600000))) ∧
    (∀ ci m : ℤ, totalHoursCalc ci (some (ci + m * 36000)) = some ((m : ℚ) / 100)) ∧
    totalHoursCalc 36000000 (some 32400000) = some (-1) ∧ (-1 : ℚ) < 0 := by
  refine ⟨fun _ => rfl, fun _ _ => rfl, ?_, ?_, by norm_num⟩
  · intro ci m
    have h0 : totalHoursCalc ci (some (ci + m * 36000)) =
        some (round2 (((ci + m * 36000 - ci : ℤ) : ℚ) / 3600000)) := rfl
    rw [h0]
    have h : ((ci + m * 36000 - ci : ℤ) : ℚ) / 3600000 = (m : ℚ) / 100 := by
      push_cast
      ring
    rw [h]
    unfold round2
    rw [div_mul_cancel₀ _ (by norm_num : (100:ℚ) ≠ 0), jsRound_intCast]
  · norm_num [totalHoursCalc, round2, jsRound]

/-! ## Claim C7 -/

/-- C7: the check-out update writes only `check_out_time`, `total_hours`,
`early_departure_minutes` and `pay_cut_amount`, leaving `check_in_time`,
`is_late`, `late_minutes` (and `status`, `pay_cut_approved`) unchanged;
the new `pay_cut_amount` is the persisted prior plus the early-departure
increment (rounded), and exactly the prior when no early departure or no
hourly rate. -/
theorem C7_checkout_extends (rec : AttendanceRecord) (now D : ℤ)
    (dailyHours : ℚ) (r : ℚ) (hr : r ≠ 0) :
    (applyCheckOut rec now D dailyHours (some r)).check_in_time = rec.check_in_time ∧
    (applyCheckOut rec now D dailyHours (some r)).is_late = rec.is_late ∧
    (applyCheckOut rec now D dailyHours (some r)).late_minutes = rec.late_minutes ∧
    (applyCheckOut rec now D dailyHours (some r)).status = rec.status ∧
    (applyCheckOut rec now D dailyHours (some r)).pay_cut_approved =
      rec.pay_cut_approved ∧
    (applyCheckOut rec now D dailyHours (some r)).check_out_time = some now ∧
    (applyCheckOut rec now D dailyHours (some r)).early_departure_minutes =
      some (earlyDepartureTracker D dailyHours now) ∧
    (applyCheckOut rec now D dailyHours (some r)).pay_cut_amount =
      some (if 0 < earlyDepartureTracker D dailyHours now then
        round2 (rec.pay_cut_amount.getD 0 +
          additionalCut ((rec.late_minutes.getD 0 : ℤ) : ℚ)
            ((earlyDepartureTracker D dailyHours now : ℤ) : ℚ) r)
        else rec.pay_cut_amount.getD 0) ∧
    (applyCheckOut rec now D dailyHours none).pay_cut_amount =
      some (rec.pay_cut_amount.getD 0) := by
  refine ⟨rfl, rfl, rfl, rfl, rfl, rfl, rfl, ?_, rfl⟩
  show some (checkOutPayCut _ _ (some r) _) = _
  simp only [checkOutPayCut]
  rw [if_neg hr]
  by_cases hE : 0 < earlyDepartureTracker D dailyHours now
  · rw [if_pos (by exact_mod_cast hE : (0:ℚ) < _), if_pos hE]
  · rw [if_neg (by exact_mod_cast hE : ¬ (0:ℚ) < _), if_neg hE]

/-- C7 (witness): a concrete previously-approved record checked out at
16:00 on an 8-hour day keeps its check-in time. -/
theorem C7_witness :
    (applyCheckOut ⟨36000000, none, none, "present", true, some 60, none,
        some 30, true⟩ 57600000 0 8 (some 60)).check_in_time = 36000000 :=
  (C7_checkout_extends ⟨36000000, none, none, "present", true, some 60, none,
    some 30, true⟩ 57600000 0 8 60 (by norm_num)).1

/-! ## Claim C8 -/

/-- C8: overtime hours are the exact plain duration — for every start and
end time the computed value times 3,600,000 ms recovers the millisecond
difference exactly, so there is no rounding or tiering (17:00→20:00 gives
exactly 3) — and the request form's schema rejects any submission whose
end time is not strictly after its start time. -/
theorem C8_overtime_hours :
    (∀ s e : ℤ, calculateHours s e * 3600000 = ((e - s : ℤ) : ℚ)) ∧
    calculateHours 61200000 72000000 = 3 ∧
    (∀ (s e : ℤ) (sl el rl : ℕ), e ≤ s →
      overtimeSchemaAccepts sl el rl s e = false) := by
  refine ⟨?_, ?_, ?_⟩
  · intro s e
    unfold calculateHours
    field_simp
  · norm_num [calculateHours]
  · intro s e sl el rl hse
    unfold overtimeSchemaAccepts
    simp [not_lt.mpr hse]

/-- C8 (witness): a 90-minute overtime window computes to exactly 1.5
hours worth of milliseconds, and equal start and end times are rejected. -/
theorem C8_witness :
    calculateHours 0 5400000 * 3600000 = ((5400000 - 0 : ℤ) : ℚ) ∧
      overtimeSchemaAccepts 5 5 12 100 100 = false :=
  ⟨C8_overtime_hours.1 0 5400000, C8_overtime_hours.2.2 100 100 5 5 12 le_rfl⟩

/-! ## Claim C9 -/

theorem sqlRound2_zero : sqlRound2 0 = 0 := by
  norm_num [sqlRound2, sqlRound]

theorem chargeQ_eq_sql_form (total r : ℚ) :
    chargeQ total r = (if total ≤ 60 then total else 60) * (r / 60) * 1 +
      (if total ≤ 60 then 0 else total - 60) * (r / 60) * (3/2) := by
  unfold chargeQ
  split_ifs with h
  · ring
  · ring

theorem chargeQ_eq_minmax (total r : ℚ) :
    chargeQ total r = min total 60 * (r / 60) +
      max (total - 60) 0 * (r / 60) * (3/2) := by
  unfold chargeQ
  split_ifs with h
  · rw [min_eq_left h, max_eq_right (by linarith)]
    ring
  · have h' := not_le.mp h
    rw [min_eq_right (le_of_lt h'), max_eq_left (by linarith)]
    ring

theorem payCutSinglePass_eq_sqlRound2 (L E r : ℚ) (hL : 0 ≤ L) (hE : 0 ≤ E)
    (hr : 0 ≤ r) (hr0 : r ≠ 0) :
    payCutSinglePass L E (some r) = sqlRound2 (chargeQ (L + E) r) := by
  simp only [payCutSinglePass]
  rw [if_neg hr0]
  by_cases h0 : 0 < L + E
  · rw [if_pos h0, round2_eq_sqlRound2 (chargeQ_nonneg (by linarith) hr)]
  · have hz : L + E = 0 := le_antisymm (not_lt.mp h0) (by linarith)
    rw [if_neg h0, hz, chargeQ_zero, sqlRound2_zero]

theorem calculate_pay_cut_eq_sqlRound2 (L E r : ℚ) (hr0 : r ≠ 0) :
    calculate_pay_cut (some L) (some E) (some r) = sqlRound2 (chargeQ (L + E) r) := by
  simp only [calculate_pay_cut, Option.getD_some]
  rw [if_neg hr0, chargeQ_eq_sql_form]

/-- C9 (counterexample): the TypeScript single-pass computation and the
SQL `calculate_pay_cut` are NOT equivalent for every hourly rate.  At rate
−0.30 with 1 late minute the raw charge is −0.005: JS `Math.round` (ties
toward +∞) gives 0.00 while PostgreSQL `ROUND` (ties away from zero)
gives −0.01. -/
theorem C9_counterexample :
    payCutSinglePass 1 0 (some (-3/10)) = 0 ∧
      calculate_pay_cut (some 1) (some 0) (some (-3/10)) = -1/100 ∧
      (0 : ℚ) ≠ -1/100 := by
  refine ⟨?_, ?_, by norm_num⟩
  · norm_num [payCutSinglePass, chargeQ, round2, jsRound]
  · norm_num [calculate_pay_cut, sqlRound2, sqlRound]

/-- C9 (amended): for all lateMinutes ≥ 0, earlyDepartureMinutes ≥ 0 and
any hourlyRate that is null or ≥ 0, the TypeScript single-pass computation
(the check-in flow being its earlyDepartureMinutes = 0 instance) and the
SQL calculate_pay_cut agree: both are 0 for a null or 0 rate, and
otherwise both equal min(total, 60) minutes at rate/60 plus minutes beyond
60 at 1.5 × rate/60, rounded to 2 decimals. -/
theorem C9_amended_ts_sql_equivalence (L E : ℚ) (hL : 0 ≤ L) (hE : 0 ≤ E)
    (r : ℚ) (hr : 0 ≤ r) :
    payCutSinglePass L E (some r) = calculate_pay_cut (some L) (some E) (some r) ∧
    payCutSinglePass L E (some r) = payCutSpec L E r ∧
    payCutSinglePass L E none = 0 ∧
    calculate_pay_cut (some L) (some E) none = 0 ∧
    checkInPayCut L (some r) = payCutSinglePass L 0 (some r) := by
  by_cases hr0 : r = 0
  · subst hr0
    refine ⟨?_, ?_, rfl, rfl, checkInPayCut_eq_singlePass L (some 0)⟩
    · simp [payCutSinglePass, calculate_pay_cut]
    · norm_num [payCutSinglePass, payCutSpec, sqlRound2, sqlRound]
  · refine ⟨?_, ?_, rfl, rfl, checkInPayCut_eq_singlePass L (some r)⟩
    · rw [payCutSinglePass_eq_sqlRound2 L E r hL hE hr hr0,
        calculate_pay_cut_eq_sqlRound2 L E r hr0]
    · rw [payCutSinglePass_eq_sqlRound2 L E r hL hE hr hr0]
      unfold payCutSpec
      rw [chargeQ_eq_minmax]

/-- C9 (witness for the amended theorem): at 30 late and 20 early minutes
with rate 60, the TypeScript and SQL computations agree. -/
theorem C9_witness :
    payCutSinglePass 30 20 (some 60) = calculate_pay_cut (some 30) (some 20) (some 60) :=
  (C9_amended_ts_sql_equivalence 30 20 (by norm_num) (by norm_num) 60 (by norm_num)).1

/-! ## Claim C10 -/

/-- C10: every admin create-or-update through the admin dialog persists
`pay_cut_approved = false` — including the update branch applied to an
arbitrary (possibly previously approved) existing record. -/
theorem C10_admin_submit_unapproves :
    ∀ (old : AttendanceRecord) (D ciT : ℤ) (coT : Option ℤ) (rate : Option ℚ)
      (status : String),
      (adminSubmit (some old) D ciT coT rate status).pay_cut_approved = false ∧
      (adminSubmit none D ciT coT rate status).pay_cut_approved = false := by
  intro old D ciT coT rate status
  exact ⟨rfl, rfl⟩
